import Mathlib

/-!
Verification development for the SGLICollect candidate-resolution core.

This file gives a shallow embedding of the parts of the repository that the
specification covers:

* `src/search.py` — `get_value` and the bulk pipeline loop of `search_csv`;
* `src/gportal/gportal_response.py` — `GPortalResponse.to_dataframe` and
  `GPortalSearchResult.filter_results`;
* the geometry primitives `inside_polygon` and `min_distance` from
  `gportal/utils.py`, which are not among the provided source files and are
  therefore modelled from the specification (each such definition carries a
  doc comment starting with "Modelled from the spec:").

Numeric cell values and coordinates are embedded as rationals (the Python
code computes with floats; every property proved here is order-theoretic or
structural, so exact arithmetic is a faithful idealisation).  Python
exceptions are embedded as the `Except` monad with error type `PyErr`.
-/

/-- Python exceptions that the embedded code can raise, abstracted.
`geometryError` stands for the numpy `ValueError`/`IndexError` raised on a
malformed coordinate array (the spec's `GeometryError`); `indexError` for
positional indexing out of bounds; `typeError` for arithmetic on a
non-numeric cell. -/
inductive PyErr where
  | geometryError
  | indexError
  | typeError
deriving DecidableEq, Repr

/-- A pandas cell value: a string, a (rational-idealised) number, or NaN
(the missing-value marker). -/
inductive Value where
  | str (s : String)
  | num (q : ℚ)
  | nan
deriving DecidableEq, Repr

/-- Python truthiness of a cell value: the empty string and the number 0 are
falsy; any other string or number is truthy; `float('nan')` is truthy in
Python. -/
def truthy : Value → Bool
  | .str s => s ≠ ""
  | .num q => q ≠ 0
  | .nan => true

/-- Embedding of `Series.fillna(0)` applied to one cell: NaN becomes the number 0. -/
def fillna : Value → Value
  | .nan => .num 0
  | v => v

/-- Embedding of `get_value` (src/search.py, lines 20–26): return the value
stored under `key` if the key is present and the value is truthy, else
`None`. -/
def get_value (d : String → Option Value) (key : String) : Option Value :=
  match d key with
  | some v => if truthy v then some v else none
  | none => none

/-- Modelled from the spec: `inside_polygon` (gportal/utils.py, absent from
the provided sources).  Crossing-number (ray-casting) point-in-polygon test
over the ring described by the two coordinate sequences `xs` (longitudes)
and `ys` (latitudes); the ring is implicitly closed (the edge from the last
vertex back to the first is included).  Per the spec it returns false for
rings with fewer than 3 vertices, never raises, and skips zero-length
edges.  The Python function returns 1 for inside (`filter_results` compares
its result with 1); we embed it as the corresponding `Bool`. -/
def inside_polygon (xs ys : List ℚ) (px py : ℚ) : Bool :=
  let pts := xs.zip ys
  match pts.getLast? with
  | none => false
  | some pl =>
    if pts.length < 3 then false
    else (pts.foldl
      (fun (st : (ℚ × ℚ) × Bool) pi =>
        let pj := st.1
        let cross :=
          ((decide (pi.2 > py)) != (decide (pj.2 > py))) &&
          decide (px < (pj.1 - pi.1) * (py - pi.2) / (pj.2 - pi.2) + pi.1)
        (pi, if cross then !st.2 else st.2))
      (pl, false)).2

/-- Squared Euclidean distance from point `p` to the segment from `a` to
`b` (nearest point on the segment, not just the endpoints); a zero-length
segment degenerates to point-to-point distance. -/
def segDistSq (p a b : ℚ × ℚ) : ℚ :=
  let dx := b.1 - a.1
  let dy := b.2 - a.2
  let den := dx * dx + dy * dy
  if den = 0 then (p.1 - a.1) ^ 2 + (p.2 - a.2) ^ 2
  else
    let t := max 0 (min 1 (((p.1 - a.1) * dx + (p.2 - a.2) * dy) / den))
    (p.1 - (a.1 + t * dx)) ^ 2 + (p.2 - (a.2 + t * dy)) ^ 2

/-- Modelled from the spec: `min_distance` (gportal/utils.py, absent from
the provided sources).  Distance from a point to the nearest point on the
polygon's boundary, over all edge segments of the implicitly closed ring.
Following the call site in `filter_results`, the point is a `[lat, lon]`
pair and the polygon a sequence of `[lon, lat]` vertex pairs.  The spec
requires only a monotonic relative score, so the embedding returns the
squared distance, an order-isomorphic value. -/
def min_distance (point : List ℚ) (polygon : List (List ℚ)) : ℚ :=
  let p : ℚ × ℚ :=
    match point with
    | la :: lo :: _ => (lo, la)
    | _ => (0, 0)
  let pts : List (ℚ × ℚ) :=
    polygon.filterMap (fun v =>
      match v with
      | x :: y :: _ => some (x, y)
      | _ => none)
  match pts with
  | [] => 0
  | p0 :: rest =>
    let edges := (p0 :: rest).zip (rest ++ [p0])
    (edges.map (fun e => segDistSq p e.1 e.2)).foldl min (segDistSq p p0 p0)

/-- Geometry part of one GPortal search hit (`GPortalGeo`, whose defining
module is absent from the provided sources): the polygon's coordinates as a
sequence of `[lon, lat]` vertex pairs. -/
structure GPortalGeo where
  coordinates : List (List ℚ)
deriving DecidableEq, Repr

/-- Catalog metadata of one GPortal search hit.  The defining module
(`gportal_types`) is absent from the provided sources; the fields are
modelled from the spec's Footprint record, flattening the `meta`/`product`
subobjects that `gportal_response.py` dereferences
(`orbitNumber`, `meta.sceneNumber`, `product.downloadUrl`, `previews`,
`meta.cloudCoverPercentage`). -/
structure GPortalProperties where
  identifier : String
  status : String
  resolution : String
  orbitNumber : Int
  sceneNumber : Int
  downloadUrl : String
  previews : List String
  cloudCoverPercentage : Option ℚ
deriving DecidableEq, Repr

/-- One parsed GPortal search result (`GPortalResponse`,
src/gportal/gportal_response.py, lines 25–38). -/
structure GPortalResponse where
  geometry : GPortalGeo
  properties : GPortalProperties
deriving DecidableEq, Repr

deriving instance DecidableEq for Except

/-- Embedding of `np.array(poly); poly.T; poly[0], poly[1]`
(src/gportal/gportal_response.py, lines 152–155): turn the coordinate list
into the column sequences `xs`, `ys`.  numpy raises on a ragged nested list
and positional access raises on an array with fewer than two columns; both
are abstracted as `geometryError` (upstream data corruption). -/
def transposeCoords (coords : List (List ℚ)) : Except PyErr (List ℚ × List ℚ) :=
  match coords with
  | [] => .error .geometryError
  | v :: vs =>
    if vs.all (fun w => w.length = v.length) then
      if 2 ≤ v.length then
        .ok (coords.map (fun w => w.getD 0 0), coords.map (fun w => w.getD 1 0))
      else .error .geometryError
    else .error .geometryError

/-- Decidable success test for `transposeCoords`. -/
def transposeOk (coords : List (List ℚ)) : Bool :=
  match transposeCoords coords with
  | .ok _ => true
  | .error _ => false

/-- Pure containment test used to state theorems: whether the footprint's
polygon contains the point, when the polygon is well formed (false when
`transposeCoords` fails). -/
def containsPt (lat lon : ℚ) (f : GPortalResponse) : Bool :=
  match transposeCoords f.geometry.coordinates with
  | .ok xy => inside_polygon xy.1 xy.2 lon lat
  | .error _ => false

/-- Embedding of the filtering loop of `filter_results`
(src/gportal/gportal_response.py, lines 150–156): collect, in candidate-set
order, the results whose polygon contains the point `(lon, lat)`;
a malformed coordinate array aborts the whole call. -/
def collectContaining (lat lon : ℚ) : List GPortalResponse → Except PyErr (List GPortalResponse)
  | [] => .ok []
  | f :: fs => do
    let xy ← transposeCoords f.geometry.coordinates
    let rest ← collectContaining lat lon fs
    pure (if inside_polygon xy.1 xy.2 lon lat then f :: rest else rest)

/-- Embedding of Python's `max` over a non-empty list (first element plus
rest). -/
def pyMax (d : ℚ) (ds : List ℚ) : ℚ :=
  ds.foldl max d

/-- Embedding of Python's `list.index`: position of the first occurrence of
`x` in `l` (the call sites only use it with `x` present in `l`). -/
def pyIndex (l : List ℚ) (x : ℚ) : Nat :=
  match l with
  | [] => 0
  | a :: as => if a = x then 0 else pyIndex as x + 1

/-- Embedding of the selection at the end of `filter_results`
(src/gportal/gportal_response.py, lines 158–168): no containing candidate →
no match; exactly one → that one; several → the one whose `min_distance`
score is maximal, at the earliest index achieving the maximum (Python's
`list.index(max(...))`). -/
def geoSelect (lat lon : ℚ) (filtered : List GPortalResponse) : Option GPortalResponse :=
  match filtered with
  | [] => none
  | [f] => some f
  | f :: g :: rest =>
    some ((f :: g :: rest).getD
      (pyIndex
        ((f :: g :: rest).map (fun h => min_distance [lat, lon] h.geometry.coordinates))
        (pyMax (min_distance [lat, lon] f.geometry.coordinates)
          ((g :: rest).map (fun h => min_distance [lat, lon] h.geometry.coordinates))))
      f)

/-- Embedding of the path/scene scan of `filter_results`
(src/gportal/gportal_response.py, lines 145–148): first result whose
orbit-path number and scene number match. -/
def findPS (p s : ℚ) : List GPortalResponse → Option GPortalResponse
  | [] => none
  | f :: fs =>
    if p = (f.properties.orbitNumber : ℚ) ∧ s = (f.properties.sceneNumber : ℚ)
    then some f else findPS p s fs

/-- Embedding of `GPortalSearchResult.filter_results`
(src/gportal/gportal_response.py, lines 121–168).  `none` components stand
for Python `None` arguments. -/
def filter_results (results : List GPortalResponse)
    (lat lon p s : Option ℚ) : Except PyErr (Option GPortalResponse) :=
  match results with
  | [] => .ok none
  | f :: fs =>
    if (p.isNone || s.isNone) && (lat.isNone || lon.isNone) then
      .ok (some f)
    else
      match p, s with
      | some pv, some sv => .ok (findPS pv sv (f :: fs))
      | _, _ =>
        match lat, lon with
        | some la, some lo => do
          let filtered ← collectContaining la lo (f :: fs)
          .ok (geoSelect la lo filtered)
        | _, _ => .ok none

/-- The eight output columns (src/gportal/gportal_response.py, lines
13–22). -/
def OUTPUT_COLUMNS : List String :=
  ["identifier", "file_status", "resolution", "path_number",
   "scene_number", "download_url", "preview_url", "cloud_coverage"]

/-- A pandas DataFrame, embedded positionally: an ordered list of column
names and an ordered list of rows, each row an association list from column
name to cell value (a column missing from a row reads as NaN, which is how
pandas pads rows when a later assignment creates a new column). -/
structure DataFrame where
  cols : List String
  rows : List (List (String × Value))
deriving DecidableEq, Repr

/-- Set (first occurrence) or append one cell in a row. -/
def setCell : List (String × Value) → String → Value → List (String × Value)
  | [], k, v => [(k, v)]
  | (k', v') :: r, k, v =>
    if k' = k then (k, v) :: r else (k', v') :: setCell r k v

/-- Apply a list of cell assignments to a row, left to right. -/
def setCells (row cells : List (String × Value)) : List (String × Value) :=
  cells.foldl (fun r kv => setCell r kv.1 kv.2) row

/-- Columns of a frame after assignments that may create new columns: the
old column order, then the new names in their own order. -/
def extendCols (cols new : List String) : List String :=
  cols ++ new.filter (fun c => decide (c ∉ cols))

/-- The eight projected fields of a footprint, in output-column order
(src/gportal/gportal_response.py, lines 60–68 and 73–80): `previews[0]`
raises on an empty preview list; an absent cloud-cover percentage is stored
as NaN. -/
def projectRow (r : GPortalResponse) : Except PyErr (List (String × Value)) :=
  match r.properties.previews with
  | [] => .error .indexError
  | u :: _ =>
    .ok [("identifier", .str r.properties.identifier),
         ("file_status", .str r.properties.status),
         ("resolution", .str r.properties.resolution),
         ("path_number", .num (r.properties.orbitNumber : ℚ)),
         ("scene_number", .num (r.properties.sceneNumber : ℚ)),
         ("download_url", .str r.properties.downloadUrl),
         ("preview_url", .str u),
         ("cloud_coverage",
          match r.properties.cloudCoverPercentage with
          | some q => .num q
          | none => .nan)]

/-- Embedding of `GPortalResponse.to_dataframe` with both the frame and the
index supplied (src/gportal/gportal_response.py, lines 59–81), the form the
bulk driver uses.  `df.size` in pandas is the number of cells
(rows × columns), so the append branch is guarded by
`index = rows.length * cols.length`; otherwise `df.index[index]` resolves
the positional index, raising `IndexError` when it is out of range, and the
eight `df.loc` assignments overwrite the output columns of that row
(creating any missing columns, padded with NaN elsewhere).  The partial
update a mid-sequence exception would leave behind is not modelled: a
failing field projection fails the whole call. -/
def to_dataframe (r : GPortalResponse) (df : DataFrame) (index : Nat) :
    Except PyErr DataFrame :=
  if index = df.rows.length * df.cols.length then
    (projectRow r).map (fun cells =>
      ⟨extendCols df.cols OUTPUT_COLUMNS, df.rows ++ [cells]⟩)
  else if index < df.rows.length then
    (projectRow r).map (fun cells =>
      ⟨extendCols df.cols OUTPUT_COLUMNS,
       df.rows.set index (setCells (df.rows.getD index []) cells)⟩)
  else .error .indexError

/-- Embedding of `df.iloc[i].fillna(0).to_dict()` (src/search.py, line
100) as a finite map: keys are exactly the frame's columns, a missing cell
reads as NaN, and `fillna(0)` turns NaN into the number 0. -/
def rowDict (df : DataFrame) (i : Nat) (k : String) : Option Value :=
  if k ∈ df.cols then
    some (fillna (((df.rows.getD i []).lookup k).getD .nan))
  else none

/-- The query filter derived from one row (src/search.py, lines 103–104):
`None` components stand for values `get_value` rejected. -/
structure Query where
  lat : Option ℚ
  lon : Option ℚ
  path : Option ℚ
  scene : Option ℚ
deriving DecidableEq, Repr

/-- Read one query component as a number: an absent component stays
`none`; a truthy non-numeric cell would make the Python pipeline fail with
a type error once the value reaches arithmetic, abstracted here as an
eager `typeError`. -/
def toQE : Option Value → Except PyErr (Option ℚ)
  | none => .ok none
  | some (.num q) => .ok (some q)
  | some (.str _) => .error .typeError
  | some .nan => .error .typeError

/-- Derive the query filter from row `i` (src/search.py, lines 103–104).
The date and resolution cells are also read there; both only parametrise
the external catalog request, which the fetch oracle abstracts, so they do
not appear in the query filter. -/
def deriveQueryE (df : DataFrame) (i : Nat) : Except PyErr Query := do
  let lat ← toQE (get_value (rowDict df i) "lat")
  let lon ← toQE (get_value (rowDict df i) "lon")
  let path ← toQE (get_value (rowDict df i) "path_number")
  let scene ← toQE (get_value (rowDict df i) "scene_number")
  pure ⟨lat, lon, path, scene⟩

/-- Modelled from the spec: `GportalApi.search` (absent from the provided
sources).  Per the spec's external-interface contract it performs the
catalog request — yielding an empty candidate set on no results or on
transient failure (`fetch i = none`) rather than raising — and resolves
the candidate set with `filter_results`. -/
def apiSearch (fetch : Nat → Option (List GPortalResponse)) (i : Nat)
    (q : Query) : Except PyErr (Option GPortalResponse) :=
  filter_results ((fetch i).getD []) q.lat q.lon q.path q.scene

/-- One iteration of the bulk loop of `search_csv` (src/search.py, lines
99–124) without the checkpoint bookkeeping: returns the updated frame and
whether the external search collaborator was invoked.  A row already
carrying a truthy identifier is skipped without any external call when
`noRepeat` is set; a `None` search outcome leaves the frame untouched. -/
def stepRes (fetch : Nat → Option (List GPortalResponse)) (noRepeat : Bool)
    (df : DataFrame) (i : Nat) : Except PyErr (DataFrame × Bool) :=
  if noRepeat && (get_value (rowDict df i) "identifier").isSome then
    .ok (df, false)
  else do
    let q ← deriveQueryE df i
    let r ← apiSearch fetch i q
    match r with
    | none => .ok (df, true)
    | some fp => (to_dataframe fp df i).map (fun d => (d, true))

/-- Observable outcome of a bulk run: the final frame, the checkpoint
flushes in order (row index at the flush, frame flushed), and the row
indices for which the external search collaborator was invoked. -/
structure RunOut where
  df : DataFrame
  saves : List (Nat × DataFrame)
  calls : List Nat
deriving DecidableEq, Repr

/-- The row loop of `search_csv` (src/search.py, lines 99–127) over an
explicit list of row indices.  After a non-skipped row whose index is a
multiple of 100 the frame is flushed; the `continue` taken for a skipped
row bypasses the flush line as well. -/
def loopRows (fetch : Nat → Option (List GPortalResponse)) (noRepeat : Bool) :
    List Nat → DataFrame → Except PyErr RunOut
  | [], df => .ok ⟨df, [], []⟩
  | i :: rest, df => do
    let s ← stepRes fetch noRepeat df i
    let o ← loopRows fetch noRepeat rest s.1
    if s.2 then
      .ok ⟨o.df, (if i % 100 == 0 then (i, s.1) :: o.saves else o.saves),
           i :: o.calls⟩
    else
      .ok ⟨o.df, o.saves, o.calls⟩

/-- Embedding of the bulk loop of `search_csv` (src/search.py, lines
96–129): process every row position in order, then flush the full table
once more unconditionally (recorded with marker index `rows.length`). -/
def search_csv (fetch : Nat → Option (List GPortalResponse))
    (noRepeat : Bool) (df : DataFrame) : Except PyErr RunOut := do
  let o ← loopRows fetch noRepeat (List.range df.rows.length) df
  .ok ⟨o.df, o.saves ++ [(df.rows.length, o.df)], o.calls⟩

/-- Well-formedness of a frame as pandas can actually produce it: at least
one column (a CSV has a header), and every cell of every row belongs to a
declared column. -/
def DataFrame.WF (df : DataFrame) : Prop :=
  df.cols ≠ [] ∧ ∀ r ∈ df.rows, ∀ kv ∈ r, kv.1 ∈ df.cols

instance (df : DataFrame) : Decidable df.WF :=
  inferInstanceAs (Decidable (_ ∧ _))

/-- Whether the driver would skip row `j` of `df`: skip-if-done enabled and
the row already carries a truthy identifier. -/
def skipAt (df : DataFrame) (noRepeat : Bool) (j : Nat) : Bool :=
  noRepeat && (get_value (rowDict df j) "identifier").isSome

/-! ### Helper lemmas about the resolver -/

theorem findPS_eq_find? (p s : ℚ) (l : List GPortalResponse) :
    findPS p s l = l.find? (fun f =>
      decide (p = (f.properties.orbitNumber : ℚ)) &&
      decide (s = (f.properties.sceneNumber : ℚ))) := by
  induction l with
  | nil => rfl
  | cons f fs ih =>
    by_cases h : p = (f.properties.orbitNumber : ℚ) ∧ s = (f.properties.sceneNumber : ℚ)
    · simp [findPS, List.find?, h.1, h.2]
    · rw [Decidable.not_and_iff_or_not] at h
      rcases h with h | h <;> simp [findPS, List.find?, h, ih]

theorem collectContaining_ok (la lo : ℚ) (l : List GPortalResponse)
    (hwf : ∀ f ∈ l, transposeOk f.geometry.coordinates = true) :
    collectContaining la lo l = .ok (l.filter (fun f => containsPt la lo f)) := by
  induction l with
  | nil => rfl
  | cons f fs ih =>
    have hf := hwf f (by simp)
    have hfs : ∀ g ∈ fs, transposeOk g.geometry.coordinates = true :=
      fun g hg => hwf g (by simp [hg])
    unfold transposeOk at hf
    rcases hxy : transposeCoords f.geometry.coordinates with e | xy
    · rw [hxy] at hf; simp at hf
    · have hc : containsPt la lo f = inside_polygon xy.1 xy.2 lo la := by
        unfold containsPt; rw [hxy]
      unfold collectContaining
      rw [hxy, ih hfs, List.filter_cons, hc]
      cases hin : inside_polygon xy.1 xy.2 lo la <;>
        simp [Bind.bind, Except.bind, pure, Except.pure, hin]

theorem transposeCoords_error_eq (c : List (List ℚ)) (e : PyErr)
    (h : transposeCoords c = .error e) : e = .geometryError := by
  rcases c with _ | ⟨v, vs⟩
  · rw [show transposeCoords [] = Except.error PyErr.geometryError from rfl] at h
    exact (Except.error.inj h).symm
  · rw [show transposeCoords (v :: vs) =
        (if (vs.all fun w => w.length = v.length) then
          if 2 ≤ v.length then
            Except.ok (((v :: vs) : List (List ℚ)).map (fun w => w.getD 0 0),
                       ((v :: vs) : List (List ℚ)).map (fun w => w.getD 1 0))
          else Except.error PyErr.geometryError
        else Except.error PyErr.geometryError) from rfl] at h
    split at h
    · split at h
      · cases h
      · exact (Except.error.inj h).symm
    · exact (Except.error.inj h).symm

theorem collectContaining_error (la lo : ℚ) (l : List GPortalResponse)
    (f : GPortalResponse) (hf : f ∈ l)
    (hbad : transposeCoords f.geometry.coordinates = .error .geometryError) :
    collectContaining la lo l = .error .geometryError := by
  induction l with
  | nil => cases hf
  | cons g gs ih =>
    unfold collectContaining
    rcases hg : transposeCoords g.geometry.coordinates with e | xy
    · have he := transposeCoords_error_eq _ _ hg
      subst he
      rfl
    · rcases List.mem_cons.mp hf with rfl | hmem
      · rw [hg] at hbad; cases hbad
      · have hred : (do
            let xy ← (Except.ok xy : Except PyErr (List ℚ × List ℚ))
            let rest ← collectContaining la lo gs
            pure (if inside_polygon xy.1 xy.2 lo la = true then g :: rest else rest)) =
          (do
            let rest ← collectContaining la lo gs
            pure (if inside_polygon xy.1 xy.2 lo la = true then g :: rest else rest)) := rfl
        rw [hred, ih hmem]
        rfl

theorem pyMax_mem (d : ℚ) (ds : List ℚ) : pyMax d ds ∈ d :: ds := by
  induction ds generalizing d with
  | nil => simp [pyMax]
  | cons e es ih =>
    have step : pyMax d (e :: es) = pyMax (max d e) es := by simp [pyMax, List.foldl]
    rw [step]
    have h := ih (max d e)
    rcases List.mem_cons.mp h with h | h
    · rw [h]
      rcases max_choice d e with hm | hm <;> rw [hm] <;> simp
    · simp [h]

theorem le_pyMax (d : ℚ) (ds : List ℚ) : ∀ x ∈ d :: ds, x ≤ pyMax d ds := by
  induction ds generalizing d with
  | nil => intro x hx; simp at hx; simp [pyMax, hx]
  | cons e es ih =>
    intro x hx
    have step : pyMax d (e :: es) = pyMax (max d e) es := by simp [pyMax, List.foldl]
    rcases List.mem_cons.mp hx with rfl | hx
    · rw [step]
      exact le_trans (le_max_left x e) (ih (max x e) (max x e) (by simp))
    · rcases List.mem_cons.mp hx with rfl | hx
      · rw [step]
        exact le_trans (le_max_right d x) (ih (max d x) (max d x) (by simp))
      · rw [step]
        exact ih (max d e) x (by simp [hx])

theorem pyIndex_lt_length (l : List ℚ) (x : ℚ) (h : x ∈ l) :
    pyIndex l x < l.length := by
  induction l with
  | nil => cases h
  | cons a as ih =>
    by_cases ha : a = x
    · simp [pyIndex, ha]
    · rcases List.mem_cons.mp h with rfl | h
      · exact absurd rfl ha
      · simp only [pyIndex, if_neg ha, List.length_cons]
        exact Nat.succ_lt_succ (ih h)

theorem getElem?_pyIndex (l : List ℚ) (x : ℚ) (h : x ∈ l) :
    l[pyIndex l x]? = some x := by
  induction l with
  | nil => cases h
  | cons a as ih =>
    by_cases ha : a = x
    · simp [pyIndex, ha]
    · rcases List.mem_cons.mp h with rfl | h
      · exact absurd rfl ha
      · simp only [pyIndex, if_neg ha]
        simpa using ih h

theorem pyIndex_first (l : List ℚ) (x : ℚ) :
    ∀ k < pyIndex l x, l[k]? ≠ some x := by
  induction l with
  | nil => intro k hk; simp [pyIndex] at hk
  | cons a as ih =>
    intro k hk
    by_cases ha : a = x
    · simp [pyIndex, ha] at hk
    · simp only [pyIndex, if_neg ha] at hk
      match k with
      | 0 => simpa using ha
      | k + 1 =>
        have := ih k (Nat.lt_of_succ_lt_succ hk)
        simpa using this

theorem geoSelect_single (la lo : ℚ) (f : GPortalResponse) :
    geoSelect la lo [f] = some f := rfl

theorem pyArgmax_spec (d : ℚ) (ds : List ℚ) :
    pyIndex (d :: ds) (pyMax d ds) < (d :: ds).length ∧
    (d :: ds)[pyIndex (d :: ds) (pyMax d ds)]? = some (pyMax d ds) ∧
    (∀ k < (d :: ds).length, (d :: ds).getD k 0 ≤ pyMax d ds) ∧
    (∀ k < pyIndex (d :: ds) (pyMax d ds), (d :: ds).getD k 0 < pyMax d ds) := by
  have hmem : pyMax d ds ∈ d :: ds := pyMax_mem d ds
  have hub := le_pyMax d ds
  have hjlt := pyIndex_lt_length (d :: ds) (pyMax d ds) hmem
  refine ⟨hjlt, getElem?_pyIndex (d :: ds) (pyMax d ds) hmem, ?_, ?_⟩
  · intro k hk
    rw [List.getD_eq_getElem?_getD, List.getElem?_eq_getElem hk]
    exact hub _ (List.getElem_mem hk)
  · intro k hk
    have hk' : k < (d :: ds).length := lt_trans hk hjlt
    rw [List.getD_eq_getElem?_getD, List.getElem?_eq_getElem hk']
    have hne : (d :: ds)[k] ≠ pyMax d ds := by
      intro hEq
      exact pyIndex_first (d :: ds) (pyMax d ds) k hk
        (by rw [List.getElem?_eq_getElem hk', hEq])
    exact lt_of_le_of_ne (hub _ (List.getElem_mem hk')) hne

theorem geoSelect_multi (la lo : ℚ) (f g : GPortalResponse)
    (rest : List GPortalResponse) :
    ∃ j fj,
      (f :: g :: rest)[j]? = some fj ∧
      geoSelect la lo (f :: g :: rest) = some fj ∧
      (∀ k < (f :: g :: rest).length,
        ((f :: g :: rest).map
          (fun h => min_distance [la, lo] h.geometry.coordinates)).getD k 0 ≤
        ((f :: g :: rest).map
          (fun h => min_distance [la, lo] h.geometry.coordinates)).getD j 0) ∧
      (∀ k < j,
        ((f :: g :: rest).map
          (fun h => min_distance [la, lo] h.geometry.coordinates)).getD k 0 <
        ((f :: g :: rest).map
          (fun h => min_distance [la, lo] h.geometry.coordinates)).getD j 0) := by
  obtain ⟨hjlt, hjget, hub, hfirst⟩ :=
    pyArgmax_spec (min_distance [la, lo] f.geometry.coordinates)
      ((g :: rest).map (fun h => min_distance [la, lo] h.geometry.coordinates))
  have hcons : ((f :: g :: rest).map
      (fun h => min_distance [la, lo] h.geometry.coordinates)) =
      min_distance [la, lo] f.geometry.coordinates ::
      (g :: rest).map (fun h => min_distance [la, lo] h.geometry.coordinates) := rfl
  rw [← hcons] at hjlt hjget hub hfirst
  have hlen : ((f :: g :: rest).map
      (fun h => min_distance [la, lo] h.geometry.coordinates)).length =
      (f :: g :: rest).length := List.length_map _ _
  rw [hlen] at hjlt hub
  have hdj : ((f :: g :: rest).map
      (fun h => min_distance [la, lo] h.geometry.coordinates)).getD
      (pyIndex
        ((f :: g :: rest).map (fun h => min_distance [la, lo] h.geometry.coordinates))
        (pyMax (min_distance [la, lo] f.geometry.coordinates)
          ((g :: rest).map (fun h => min_distance [la, lo] h.geometry.coordinates)))) 0 =
      pyMax (min_distance [la, lo] f.geometry.coordinates)
        ((g :: rest).map (fun h => min_distance [la, lo] h.geometry.coordinates)) := by
    rw [List.getD_eq_getElem?_getD, hjget]
    rfl
  have hsel : geoSelect la lo (f :: g :: rest) =
      some ((f :: g :: rest).getD
        (pyIndex
          ((f :: g :: rest).map (fun h => min_distance [la, lo] h.geometry.coordinates))
          (pyMax (min_distance [la, lo] f.geometry.coordinates)
            ((g :: rest).map (fun h => min_distance [la, lo] h.geometry.coordinates)))) f) :=
    rfl
  have hget : (f :: g :: rest)[pyIndex
      ((f :: g :: rest).map (fun h => min_distance [la, lo] h.geometry.coordinates))
      (pyMax (min_distance [la, lo] f.geometry.coordinates)
        ((g :: rest).map (fun h => min_distance [la, lo] h.geometry.coordinates)))]? =
      some ((f :: g :: rest).getD
        (pyIndex
          ((f :: g :: rest).map (fun h => min_distance [la, lo] h.geometry.coordinates))
          (pyMax (min_distance [la, lo] f.geometry.coordinates)
            ((g :: rest).map (fun h => min_distance [la, lo] h.geometry.coordinates)))) f) := by
    rw [List.getD_eq_getElem?_getD, List.getElem?_eq_getElem hjlt]
    rfl
  exact ⟨_, _, hget, hsel, fun k hk => by rw [hdj]; exact hub k hk,
         fun k hk => by rw [hdj]; exact hfirst k hk⟩

/-! ### Concrete fixtures used by witnesses -/

/-- A square polygon as a `[lon, lat]` coordinate ring (no repeated closing
vertex; the implementations treat the ring as closed). -/
def sqPoly (x0 y0 x1 y1 : ℚ) : List (List ℚ) :=
  [[x0, y0], [x1, y0], [x1, y1], [x0, y1]]

/-- A concrete footprint fixture. -/
def mkFp (name : String) (poly : List (List ℚ)) (p s : Int) : GPortalResponse :=
  { geometry := { coordinates := poly },
    properties := { identifier := name, status := "GOOD", resolution := "250m",
                    orbitNumber := p, sceneNumber := s, downloadUrl := "du",
                    previews := ["pu"], cloudCoverPercentage := some 10 } }

/-- Fixture: square around (lon 139, lat 35) with border margin 2. -/
def fpA : GPortalResponse := mkFp "A" (sqPoly 137 33 141 37) 97 5

/-- Fixture: square around (lon 139, lat 35) with border margin 5. -/
def fpB : GPortalResponse := mkFp "B" (sqPoly 134 30 144 40) 98 6

/-- Fixture: square around (lon 139, lat 35) with border margin 3. -/
def fpC : GPortalResponse := mkFp "C" (sqPoly 136 32 142 38) 99 7

/-! ### Claims about the candidate resolver -/

/-- C9: with an empty candidate set `resolve` returns no match for every
filter, and with a non-empty candidate set and a query filter supplying
neither a complete (path,scene) pair nor a complete (lat,lon) pair it
returns the first footprint (catalog relevance order preserved). -/
theorem C9_empty_and_no_filter :
    (∀ (lat lon p s : Option ℚ), filter_results [] lat lon p s = .ok none) ∧
    (∀ (results : List GPortalResponse) (lat lon p s : Option ℚ),
      (p = none ∨ s = none) → (lat = none ∨ lon = none) →
      filter_results results lat lon p s = .ok results.head?) := by
  constructor
  · intro lat lon p s
    rfl
  · intro results lat lon p s hps hll
    cases results with
    | nil => rfl
    | cons f fs =>
      have hcond : ((p.isNone || s.isNone) && (lat.isNone || lon.isNone)) = true := by
        rcases hps with rfl | rfl <;> rcases hll with rfl | rfl <;> simp
      simp [filter_results, hcond]

/-- Witness for C9 at concrete inputs. -/
theorem C9_empty_and_no_filter_witness :
    filter_results [] (some 35) (some 139) (some 97) (some 5) = .ok none ∧
    filter_results [fpA, fpB, fpC] none none none none = .ok (some fpA) := by
  constructor
  · exact C9_empty_and_no_filter.1 (some 35) (some 139) (some 97) (some 5)
  · exact C9_empty_and_no_filter.2 [fpA, fpB, fpC] none none none none
      (Or.inl rfl) (Or.inl rfl)

/-- C2: with a non-empty candidate set and a complete (path,scene) pair,
`resolve` returns the first footprint matching both numbers (no match if
none does), for every lat/lon supplied alongside — the path/scene branch
executes to the exclusion of the geographic branch. -/
theorem C2_path_scene_first_match (results : List GPortalResponse)
    (lat lon : Option ℚ) (p s : ℚ) (h : results ≠ []) :
    filter_results results lat lon (some p) (some s) =
      .ok (results.find? (fun f =>
        decide (p = (f.properties.orbitNumber : ℚ)) &&
        decide (s = (f.properties.sceneNumber : ℚ)))) := by
  cases results with
  | nil => exact absurd rfl h
  | cons f fs =>
    simp only [filter_results, Option.isNone_some, Bool.false_or, Bool.false_and,
      Bool.or_self, Bool.false_eq_true, if_false]
    exact congrArg Except.ok (findPS_eq_find? p s (f :: fs))

/-- Witness for C2: the path/scene match wins even though the point
(lat 35, lon 139) lies inside a different footprint's polygon. -/
theorem C2_path_scene_first_match_witness :
    filter_results [fpA, fpB, fpC] (some 35) (some 139) (some 99) (some 7) =
      .ok ([fpA, fpB, fpC].find? (fun f =>
        decide ((99 : ℚ) = (f.properties.orbitNumber : ℚ)) &&
        decide ((7 : ℚ) = (f.properties.sceneNumber : ℚ)))) ∧
    ([fpA, fpB, fpC].find? (fun f =>
        decide ((99 : ℚ) = (f.properties.orbitNumber : ℚ)) &&
        decide ((7 : ℚ) = (f.properties.sceneNumber : ℚ)))) = some fpC := by
  constructor
  · exact C2_path_scene_first_match [fpA, fpB, fpC] (some 35) (some 139) 99 7
      (by simp)
  · with_unfolding_all decide

/-- C1: with a complete (lat,lon) pair and no complete (path,scene) pair,
`resolve` collects, in candidate-set order, the footprints whose polygon
contains the point (that is `results.filter`); an empty filtered list gives
no match, a singleton gives its entry, and a longer list gives the entry
whose border-distance score is maximal, exact ties broken by the earliest
index in the filtered list. -/
theorem C1_geo_containment_max_border (results : List GPortalResponse)
    (la lo : ℚ) (p s : Option ℚ)
    (hwf : ∀ f ∈ results, transposeOk f.geometry.coordinates = true)
    (hps : p = none ∨ s = none) :
    (results.filter (fun f => containsPt la lo f) = [] →
      filter_results results (some la) (some lo) p s = .ok none) ∧
    (∀ f0, results.filter (fun f => containsPt la lo f) = [f0] →
      filter_results results (some la) (some lo) p s = .ok (some f0)) ∧
    (∀ f0 g0 rest0,
      results.filter (fun f => containsPt la lo f) = f0 :: g0 :: rest0 →
      ∃ j fj, (f0 :: g0 :: rest0)[j]? = some fj ∧
        filter_results results (some la) (some lo) p s = .ok (some fj) ∧
        (∀ k < (f0 :: g0 :: rest0).length,
          ((f0 :: g0 :: rest0).map
            (fun h => min_distance [la, lo] h.geometry.coordinates)).getD k 0 ≤
          ((f0 :: g0 :: rest0).map
            (fun h => min_distance [la, lo] h.geometry.coordinates)).getD j 0) ∧
        (∀ k < j,
          ((f0 :: g0 :: rest0).map
            (fun h => min_distance [la, lo] h.geometry.coordinates)).getD k 0 <
          ((f0 :: g0 :: rest0).map
            (fun h => min_distance [la, lo] h.geometry.coordinates)).getD j 0)) := by
  cases results with
  | nil =>
    refine ⟨fun _ => rfl, fun f0 hF => ?_, fun f0 g0 rest0 hF => ?_⟩
    · simp at hF
    · simp at hF
  | cons f fs =>
    have hsel : filter_results (f :: fs) (some la) (some lo) p s =
        .ok (geoSelect la lo ((f :: fs).filter (fun g => containsPt la lo g))) := by
      have hstep : filter_results (f :: fs) (some la) (some lo) p s =
          (do
            let filtered ← collectContaining la lo (f :: fs)
            Except.ok (geoSelect la lo filtered)) := by
        rcases hps with rfl | rfl
        · cases s <;> rfl
        · cases p <;> rfl
      rw [hstep, collectContaining_ok la lo (f :: fs) hwf]
      rfl
    refine ⟨fun hF => ?_, fun f0 hF => ?_, fun f0 g0 rest0 hF => ?_⟩
    · rw [hsel, hF]
      rfl
    · rw [hsel, hF]
      rfl
    · obtain ⟨j, fj, h1, h2, h3, h4⟩ := geoSelect_multi la lo f0 g0 rest0
      exact ⟨j, fj, h1, by rw [hsel, hF, h2], h3, h4⟩

set_option maxRecDepth 8000 in
/-- Witness for C1: three footprints whose square polygons all contain
(lat 35, lon 139) with border-distance scores 4, 25 and 9; the one with the
maximal score (fpB) is selected. -/
theorem C1_geo_containment_max_border_witness :
    ((∀ f ∈ [fpA, fpB, fpC], transposeOk f.geometry.coordinates = true) ∧
      [fpA, fpB, fpC].filter (fun f => containsPt 35 139 f) = [fpA, fpB, fpC]) ∧
    (∃ j fj, ([fpA, fpB, fpC] : List GPortalResponse)[j]? = some fj ∧
      filter_results [fpA, fpB, fpC] (some 35) (some 139) none none = .ok (some fj) ∧
      (∀ k < ([fpA, fpB, fpC] : List GPortalResponse).length,
        (([fpA, fpB, fpC] : List GPortalResponse).map
          (fun h => min_distance [35, 139] h.geometry.coordinates)).getD k 0 ≤
        (([fpA, fpB, fpC] : List GPortalResponse).map
          (fun h => min_distance [35, 139] h.geometry.coordinates)).getD j 0) ∧
      (∀ k < j,
        (([fpA, fpB, fpC] : List GPortalResponse).map
          (fun h => min_distance [35, 139] h.geometry.coordinates)).getD k 0 <
        (([fpA, fpB, fpC] : List GPortalResponse).map
          (fun h => min_distance [35, 139] h.geometry.coordinates)).getD j 0)) ∧
    filter_results [fpA, fpB, fpC] (some 35) (some 139) none none = .ok (some fpB) := by
  refine ⟨⟨by with_unfolding_all decide, by with_unfolding_all decide⟩, ?_, ?_⟩
  · exact (C1_geo_containment_max_border [fpA, fpB, fpC] 35 139 none none
      (by with_unfolding_all decide) (Or.inl rfl)).2.2 fpA fpB [fpC]
      (by with_unfolding_all decide)
  · with_unfolding_all decide

/-- Fixture: a structurally well-formed polygon with only 2 vertices. -/
def fpShort : GPortalResponse := mkFp "M2" [[0, 0], [10, 0]] 1 1

/-- Fixture: a ragged coordinate array (mismatched vertex lengths). -/
def fpRagged : GPortalResponse := mkFp "MR" [[0, 0], [0, 0, 1], [1, 1]] 1 1

theorem inside_polygon_short (xs ys : List ℚ) (px py : ℚ)
    (h : (xs.zip ys).length < 3) : inside_polygon xs ys px py = false := by
  simp only [inside_polygon]
  split
  · rfl
  · rw [if_pos h]

theorem transposeCoords_ok_shape (c : List (List ℚ)) (xy : List ℚ × List ℚ)
    (h : transposeCoords c = .ok xy) :
    xy.1.length = c.length ∧ xy.2.length = c.length := by
  rcases c with _ | ⟨v, vs⟩
  · rw [show transposeCoords [] = Except.error PyErr.geometryError from rfl] at h
    cases h
  · rw [show transposeCoords (v :: vs) =
        (if (vs.all fun w => w.length = v.length) then
          if 2 ≤ v.length then
            Except.ok (((v :: vs) : List (List ℚ)).map (fun w => w.getD 0 0),
                       ((v :: vs) : List (List ℚ)).map (fun w => w.getD 1 0))
          else Except.error PyErr.geometryError
        else Except.error PyErr.geometryError) from rfl] at h
    split at h
    · split at h
      · cases h
        constructor <;> simp
      · cases h
    · cases h

theorem containsPt_short (la lo : ℚ) (f : GPortalResponse)
    (h3 : f.geometry.coordinates.length < 3) :
    containsPt la lo f = false := by
  unfold containsPt
  rcases hxy : transposeCoords f.geometry.coordinates with e | xy
  · rfl
  · obtain ⟨h1, h2⟩ := transposeCoords_ok_shape _ _ hxy
    apply inside_polygon_short
    rw [List.length_zip, h1, h2]
    simpa using h3

/-- The geographic branch of `filter_results`, as one equation (taken when
lat and lon are both supplied and path/scene is incomplete). -/
theorem filter_results_geo_eq (f : GPortalResponse) (fs : List GPortalResponse)
    (la lo : ℚ) (p s : Option ℚ) (hps : p = none ∨ s = none) :
    filter_results (f :: fs) (some la) (some lo) p s =
      (do
        let filtered ← collectContaining la lo (f :: fs)
        Except.ok (geoSelect la lo filtered)) := by
  rcases hps with rfl | rfl
  · cases s <;> rfl
  · cases p <;> rfl

/-- C3 counterexample: a candidate set whose only footprint has a 2-vertex
polygon; `resolve` with a complete (lat,lon) filter returns a normal
no-match outcome, not a `GeometryError`. -/
theorem C3_counterexample :
    filter_results [fpShort] (some 1) (some 1) none none = .ok none ∧
    ∀ e, filter_results [fpShort] (some 1) (some 1) none none ≠ .error e := by
  have h : filter_results [fpShort] (some 1) (some 1) none none = .ok none := by
    with_unfolding_all decide
  exact ⟨h, fun e hc => by rw [h] at hc; cases hc⟩

/-- C3 amended: a malformed coordinate array (ragged rows, vertices with
fewer than two coordinates, or an empty array) anywhere in the candidate
set aborts the geographic branch of `resolve` with a `GeometryError`; but a
structurally well-formed polygon with fewer than 3 vertices is silently
treated as not containing the point, so a candidate set of such polygons
yields a normal no-match outcome rather than an error. -/
theorem C3_amended_geometry_errors (results : List GPortalResponse)
    (la lo : ℚ) (p s : Option ℚ) (hps : p = none ∨ s = none) :
    (∀ f ∈ results,
      transposeCoords f.geometry.coordinates = .error .geometryError →
      filter_results results (some la) (some lo) p s = .error .geometryError) ∧
    ((∀ f ∈ results, transposeOk f.geometry.coordinates = true ∧
        f.geometry.coordinates.length < 3) →
      filter_results results (some la) (some lo) p s = .ok none) := by
  constructor
  · intro f hf hbad
    cases results with
    | nil => cases hf
    | cons g gs =>
      rw [filter_results_geo_eq g gs la lo p s hps,
        collectContaining_error la lo (g :: gs) f hf hbad]
      rfl
  · intro hshort
    cases results with
    | nil => rfl
    | cons g gs =>
      rw [filter_results_geo_eq g gs la lo p s hps,
        collectContaining_ok la lo (g :: gs) (fun f hf => (hshort f hf).1)]
      have hnil : (g :: gs).filter (fun f => containsPt la lo f) = [] := by
        rw [List.filter_eq_nil_iff]
        intro f hf
        rw [containsPt_short la lo f (hshort f hf).2]
        simp
      rw [hnil]
      rfl

/-- Witness for the amended C3: the ragged fixture aborts with a
`GeometryError`; the 2-vertex fixture resolves to a normal no match. -/
theorem C3_amended_geometry_errors_witness :
    filter_results [fpRagged] (some 1) (some 1) none none =
      .error .geometryError ∧
    filter_results [fpShort] (some 1) (some 1) none none = .ok none := by
  constructor
  · exact (C3_amended_geometry_errors [fpRagged] 1 1 none none (Or.inl rfl)).1
      fpRagged (by simp) (by with_unfolding_all decide)
  · exact (C3_amended_geometry_errors [fpShort] 1 1 none none (Or.inl rfl)).2
      (by with_unfolding_all decide)

/-- C4: evaluation at the failing input.  For a table of one row and the
eight output columns, index 1 is exactly "no prior row at that index", yet
`to_dataframe` does not append: `df.size` is rows × columns = 8 ≠ 1, so the
update branch runs and positional indexing raises `IndexError`. -/
theorem C4_append_index_bug :
    to_dataframe fpA
      { cols := OUTPUT_COLUMNS, rows := [[("identifier", Value.str "old")]] } 1 =
      .error .indexError ∧
    ({ cols := OUTPUT_COLUMNS,
       rows := [[("identifier", Value.str "old")]] } : DataFrame).rows.length *
      ({ cols := OUTPUT_COLUMNS,
         rows := [[("identifier", Value.str "old")]] } : DataFrame).cols.length = 8 := by
  constructor
  · with_unfolding_all decide
  · decide

/-! ### Helper lemmas about the accumulator and the driver loop -/

theorem exbind_ok {α β : Type} (a : α) (f : α → Except PyErr β) :
    (Except.ok a >>= f) = f a := rfl

theorem exbind_error {α β : Type} (e : PyErr) (f : α → Except PyErr β) :
    ((Except.error e : Except PyErr α) >>= f) = .error e := rfl

theorem exmap_ok {α β : Type} (f : α → β) (a : α) :
    Except.map f (Except.ok a : Except PyErr α) = .ok (f a) := rfl

theorem exmap_error {α β : Type} (f : α → β) (e : PyErr) :
    Except.map f (Except.error e : Except PyErr α) = .error e := rfl

theorem mem_setCell (row : List (String × Value)) (k : String) (v : Value)
    (kv : String × Value) (h : kv ∈ setCell row k v) : kv ∈ row ∨ kv.1 = k := by
  induction row with
  | nil =>
    simp [setCell] at h
    simp [h]
  | cons p r ih =>
    by_cases hp : p.1 = k
    · rw [show setCell (p :: r) k v = (k, v) :: r by
        rw [show (p :: r) = ((p.1, p.2) :: r) by rfl]
        simp [setCell, hp]] at h
      rcases List.mem_cons.mp h with rfl | h
      · simp
      · exact Or.inl (List.mem_cons_of_mem _ h)
    · rw [show setCell (p :: r) k v = p :: setCell r k v by
        rw [show (p :: r) = ((p.1, p.2) :: r) by rfl]
        simp [setCell, hp]] at h
      rcases List.mem_cons.mp h with rfl | h
      · simp
      · rcases ih h with h | h
        · exact Or.inl (List.mem_cons_of_mem _ h)
        · exact Or.inr h

theorem mem_setCells (row cells : List (String × Value)) (kv : String × Value)
    (h : kv ∈ setCells row cells) : kv ∈ row ∨ kv.1 ∈ cells.map Prod.fst := by
  induction cells generalizing row with
  | nil => exact Or.inl h
  | cons c cs ih =>
    have hstep : setCells row (c :: cs) = setCells (setCell row c.1 c.2) cs := rfl
    rw [hstep] at h
    rcases ih (setCell row c.1 c.2) h with h | h
    · rcases mem_setCell row c.1 c.2 kv h with h | h
      · exact Or.inl h
      · exact Or.inr (by simp [h])
    · exact Or.inr (by simp [h])

theorem projectRow_keys (r : GPortalResponse) (cells : List (String × Value))
    (h : projectRow r = .ok cells) : cells.map Prod.fst = OUTPUT_COLUMNS := by
  unfold projectRow at h
  split at h
  · cases h
  · cases h
    rfl

theorem mem_extendCols (cols new : List String) (c : String) :
    c ∈ extendCols cols new ↔ c ∈ cols ∨ c ∈ new := by
  unfold extendCols
  constructor
  · intro h
    rcases List.mem_append.mp h with h | h
    · exact Or.inl h
    · exact Or.inr (List.mem_of_mem_filter h)
  · intro h
    by_cases hc : c ∈ cols
    · exact List.mem_append.mpr (Or.inl hc)
    · rcases h with h | h
      · exact absurd h hc
      · exact List.mem_append.mpr (Or.inr (List.mem_filter.mpr ⟨h, by simp [hc]⟩))

theorem extendCols_ne_nil (cols new : List String) (h : cols ≠ []) :
    extendCols cols new ≠ [] := by
  unfold extendCols
  simp [h]

/-- Facts about a successful `to_dataframe` call at a position inside the
table with at least one column present: the update branch runs; it keeps
the row count, touches only the target row, only extends the column list,
and preserves well-formedness. -/
theorem to_dataframe_update_facts (r : GPortalResponse) (df : DataFrame)
    (j : Nat) (df' : DataFrame) (hcols : df.cols ≠ []) (hj : j < df.rows.length)
    (h : to_dataframe r df j = .ok df') :
    df'.rows.length = df.rows.length ∧
    (∀ k, k ≠ j → df'.rows[k]? = df.rows[k]?) ∧
    (∀ c ∈ df.cols, c ∈ df'.cols) ∧
    (DataFrame.WF df → DataFrame.WF df') := by
  have hsz : j ≠ df.rows.length * df.cols.length := by
    intro hEq
    have h1 : 1 ≤ df.cols.length := by
      cases hc : df.cols with
      | nil => exact absurd hc hcols
      | cons a as => simp [hc]
    have : df.rows.length ≤ df.rows.length * df.cols.length :=
      Nat.le_mul_of_pos_right _ h1
    omega
  unfold to_dataframe at h
  rw [if_neg hsz, if_pos hj] at h
  rcases hp : projectRow r with e | cells
  · rw [hp] at h
    cases h
  · rw [hp] at h
    have hdf' : df' = ⟨extendCols df.cols OUTPUT_COLUMNS,
        df.rows.set j (setCells (df.rows.getD j []) cells)⟩ := by
      cases h
      rfl
    subst hdf'
    refine ⟨by simp, fun k hk => List.getElem?_set_ne (fun hEq => hk hEq.symm), ?_, ?_⟩
    · intro c hc
      exact (mem_extendCols _ _ _).mpr (Or.inl hc)
    · rintro ⟨hne, hkeys⟩
      refine ⟨extendCols_ne_nil _ _ hne, ?_⟩
      intro row hrow kv hkv
      rcases List.mem_or_eq_of_mem_set hrow with hrow | rfl
      · exact (mem_extendCols _ _ _).mpr (Or.inl (hkeys row hrow kv hkv))
      · rcases mem_setCells _ _ _ hkv with hkv | hkv
        · have hmem : df.rows.getD j [] ∈ df.rows := by
            rw [List.getD_eq_getElem?_getD, List.getElem?_eq_getElem hj]
            exact List.getElem_mem hj
          exact (mem_extendCols _ _ _).mpr (Or.inl (hkeys _ hmem kv hkv))
        · rw [projectRow_keys r cells hp] at hkv
          exact (mem_extendCols _ _ _).mpr (Or.inr hkv)

theorem lookup_eq_none_of_keys (row : List (String × Value)) (cols : List String)
    (hkeys : ∀ kv ∈ row, kv.1 ∈ cols) (k : String) (hk : k ∉ cols) :
    row.lookup k = none := by
  induction row with
  | nil => rfl
  | cons p r ih =>
    have hne : (k == p.1) = false := by
      have hp := hkeys p (by simp)
      rcases hbe : (k == p.1) with _ | _
      · rfl
      · exact absurd (eq_of_beq hbe ▸ hp) hk
    rw [show (p :: r) = ((p.1, p.2) :: r) by rfl, List.lookup, hne]
    exact ih (fun kv hkv => hkeys kv (List.mem_cons_of_mem _ hkv))

/-- The function `get_value` over a row dictionary only depends on the row's cells and
membership of the key among the columns; extending the column list of a
well-formed frame does not change any `get_value` outcome (a freshly
created column reads NaN, which `fillna(0)` maps to the falsy 0). -/
theorem get_value_rowDict_invariant (df df' : DataFrame) (i : Nat) (k : String)
    (hrow : df'.rows[i]? = df.rows[i]?)
    (hcols : ∀ c ∈ df.cols, c ∈ df'.cols)
    (hkeys : ∀ kv ∈ df.rows.getD i [], kv.1 ∈ df.cols) :
    get_value (rowDict df' i) k = get_value (rowDict df i) k := by
  have hrowD : df'.rows.getD i [] = df.rows.getD i [] := by
    rw [List.getD_eq_getElem?_getD, List.getD_eq_getElem?_getD, hrow]
  by_cases hk : k ∈ df.cols
  · have hk' : k ∈ df'.cols := hcols k hk
    unfold get_value rowDict
    rw [if_pos hk, if_pos hk', hrowD]
  · have hnone : (df.rows.getD i []).lookup k = none :=
      lookup_eq_none_of_keys _ _ hkeys k hk
    unfold get_value rowDict
    rw [if_neg hk]
    by_cases hk' : k ∈ df'.cols
    · rw [if_pos hk', hrowD, hnone]
      rfl
    · rw [if_neg hk']

/-- Facts about one successful driver step at row `j` of a frame with at
least one column: the row count is preserved, rows other than `j` are
untouched, columns only grow, well-formedness is preserved, and a step
that made no external call (a skip) leaves the frame unchanged. -/
theorem stepRes_ok_facts (fetch : Nat → Option (List GPortalResponse))
    (noRepeat : Bool) (df : DataFrame) (j : Nat) (out : DataFrame × Bool)
    (hcols : df.cols ≠ []) (hj : j < df.rows.length)
    (h : stepRes fetch noRepeat df j = .ok out) :
    out.1.rows.length = df.rows.length ∧
    (∀ k, k ≠ j → out.1.rows[k]? = df.rows[k]?) ∧
    (∀ c ∈ df.cols, c ∈ out.1.cols) ∧
    (DataFrame.WF df → DataFrame.WF out.1) ∧
    (out.2 = false → out.1 = df) := by
  unfold stepRes at h
  split at h
  · cases h
    exact ⟨rfl, fun _ _ => rfl, fun c hc => hc, fun hwf => hwf, fun _ => rfl⟩
  · rcases hq : deriveQueryE df j with e | q
    · rw [hq, exbind_error] at h
      cases h
    · rw [hq, exbind_ok] at h
      rcases hr : apiSearch fetch j q with e | r
      · rw [hr, exbind_error] at h
        cases h
      · rw [hr, exbind_ok] at h
        cases r with
        | none =>
          cases h
          exact ⟨rfl, fun _ _ => rfl, fun c hc => hc, fun hwf => hwf,
            fun hc => by cases hc⟩
        | some fp =>
          have h' : Except.map (fun d => (d, true)) (to_dataframe fp df j) =
              Except.ok out := h
          rcases hd : to_dataframe fp df j with e | d
          · rw [hd, exmap_error] at h'
            cases h'
          · rw [hd, exmap_ok] at h'
            cases h'
            obtain ⟨h1, h2, h3, h4⟩ := to_dataframe_update_facts fp df j d hcols hj hd
            exact ⟨h1, h2, h3, h4, fun hc => by cases hc⟩

theorem stepRes_called (fetch : Nat → Option (List GPortalResponse))
    (noRepeat : Bool) (df : DataFrame) (j : Nat) (out : DataFrame × Bool)
    (h : stepRes fetch noRepeat df j = .ok out) :
    out.2 = !(skipAt df noRepeat j) := by
  unfold stepRes at h
  by_cases hskip : (noRepeat && (get_value (rowDict df j) "identifier").isSome) = true
  · rw [if_pos hskip] at h
    cases h
    rw [show skipAt df noRepeat j = true from hskip]
    rfl
  · rw [if_neg hskip] at h
    rw [show skipAt df noRepeat j = false from Bool.eq_false_iff.mpr hskip]
    rcases hq : deriveQueryE df j with e | q
    · rw [hq, exbind_error] at h
      cases h
    · rw [hq, exbind_ok] at h
      rcases hr : apiSearch fetch j q with e | r
      · rw [hr, exbind_error] at h
        cases h
      · rw [hr, exbind_ok] at h
        cases r with
        | none => cases h; rfl
        | some fp =>
          have h' : Except.map (fun d => (d, true)) (to_dataframe fp df j) =
              Except.ok out := h
          rcases hd : to_dataframe fp df j with e | d
          · rw [hd, exmap_error] at h'
            cases h'
          · rw [hd, exmap_ok] at h'
            cases h'
            rfl

theorem rows_getD_keys (df : DataFrame) (hwf : DataFrame.WF df) (k : Nat) :
    ∀ kv ∈ df.rows.getD k [], kv.1 ∈ df.cols := by
  intro kv hkv
  rcases hlt : df.rows[k]? with _ | row
  · rw [List.getD_eq_getElem?_getD, hlt] at hkv
    cases hkv
  · rw [List.getD_eq_getElem?_getD, hlt] at hkv
    exact hwf.2 row (List.getElem?_mem hlt) kv hkv

/-- The main loop invariant: a successful run of the row loop over a
duplicate-free list of in-range row indices flushes exactly after the
non-skipped indices that are multiples of 100 (in order), calls the search
collaborator exactly for the non-skipped indices (in order), keeps the row
count and well-formedness, and leaves every row untouched that is either
never visited or visited only as a skip. -/
theorem loopRows_facts (fetch : Nat → Option (List GPortalResponse))
    (noRepeat : Bool) (l : List Nat) :
    ∀ (df : DataFrame) (o : RunOut),
    DataFrame.WF df →
    (∀ j ∈ l, j < df.rows.length) →
    l.Nodup →
    loopRows fetch noRepeat l df = .ok o →
    o.saves.map Prod.fst =
      l.filter (fun j => !(skipAt df noRepeat j) && j % 100 == 0) ∧
    o.calls = l.filter (fun j => !(skipAt df noRepeat j)) ∧
    o.df.rows.length = df.rows.length ∧
    DataFrame.WF o.df ∧
    (∀ k, (k ∈ l → skipAt df noRepeat k = true) → o.df.rows[k]? = df.rows[k]?) := by
  induction l with
  | nil =>
    intro df o hwf hin hnd h
    cases h
    exact ⟨rfl, rfl, rfl, hwf, fun k _ => rfl⟩
  | cons j rest ih =>
    intro df o hwf hin hnd h
    have hstep : loopRows fetch noRepeat (j :: rest) df = (do
        let s ← stepRes fetch noRepeat df j
        let o ← loopRows fetch noRepeat rest s.1
        if s.2 then
          Except.ok ⟨o.df, (if j % 100 == 0 then (j, s.1) :: o.saves else o.saves),
            j :: o.calls⟩
        else
          Except.ok ⟨o.df, o.saves, o.calls⟩) := rfl
    rw [hstep] at h
    rcases hs : stepRes fetch noRepeat df j with e | s
    · rw [hs, exbind_error] at h
      cases h
    · rw [hs, exbind_ok] at h
      rcases ho : loopRows fetch noRepeat rest s.1 with e | o'
      · rw [ho, exbind_error] at h
        cases h
      · rw [ho, exbind_ok] at h
        obtain ⟨hlen, hframe, hcolsub, hwfstep, hident⟩ :=
          stepRes_ok_facts fetch noRepeat df j s hwf.1 (hin j (by simp)) hs
        have hcalled := stepRes_called fetch noRepeat df j s hs
        obtain ⟨hjnotin, hndrest⟩ := List.nodup_cons.mp hnd
        have hskipinv : ∀ k, k ≠ j →
            skipAt s.1 noRepeat k = skipAt df noRepeat k := by
          intro k hk
          unfold skipAt
          rw [get_value_rowDict_invariant df s.1 k "identifier" (hframe k hk)
            hcolsub (rows_getD_keys df hwf k)]
        have hrest_in : ∀ i ∈ rest, i < s.1.rows.length := by
          intro i hi
          rw [hlen]
          exact hin i (by simp [hi])
        obtain ⟨hsaves, hcalls, hlen', hwf', hpres⟩ :=
          ih s.1 o' (hwfstep hwf) hrest_in hndrest ho
        have hfilt1 : rest.filter
              (fun i => !(skipAt s.1 noRepeat i) && i % 100 == 0) =
            rest.filter (fun i => !(skipAt df noRepeat i) && i % 100 == 0) := by
          apply List.filter_congr
          intro i hi
          rw [hskipinv i (fun hEq => hjnotin (hEq ▸ hi))]
        have hfilt2 : rest.filter (fun i => !(skipAt s.1 noRepeat i)) =
            rest.filter (fun i => !(skipAt df noRepeat i)) := by
          apply List.filter_congr
          intro i hi
          rw [hskipinv i (fun hEq => hjnotin (hEq ▸ hi))]
        have hpres' : ∀ k, (k ∈ j :: rest → skipAt df noRepeat k = true) →
            o'.df.rows[k]? = df.rows[k]? := by
          intro k hk
          by_cases hkj : k = j
          · subst hkj
            have hsk : skipAt df noRepeat k = true := hk (by simp)
            have hs2 : s.2 = false := by
              rw [hcalled, hsk]
              rfl
            rw [hpres k (fun hkr => absurd hkr (by
                intro hc
                exact hjnotin hc))]
            rw [hident hs2]
          · rw [hpres k (fun hkr => by
                rw [hskipinv k hkj]
                exact hk (List.mem_cons_of_mem _ hkr))]
            exact hframe k hkj
        cases hs2 : s.2 with
        | false =>
          rw [hs2] at h
          rw [if_neg (by simp)] at h
          cases h
          have hskj : skipAt df noRepeat j = true := by
            rcases hb : skipAt df noRepeat j with _ | _
            · rw [hb] at hcalled
              rw [hcalled] at hs2
              cases hs2
            · rfl
          constructor
          · rw [hsaves, hfilt1, List.filter_cons, hskj]
            simp
          refine ⟨?_, hlen'.trans hlen, hwf', hpres'⟩
          · rw [hcalls, hfilt2, List.filter_cons, hskj]
            simp
        | true =>
          rw [hs2] at h
          rw [if_pos rfl] at h
          cases h
          have hskj : skipAt df noRepeat j = false := by
            rcases hb : skipAt df noRepeat j with _ | _
            · rfl
            · rw [hb] at hcalled
              rw [hcalled] at hs2
              cases hs2
          constructor
          · cases hj100 : (j % 100 == 0) with
            | true =>
              rw [if_pos rfl]
              show j :: o'.saves.map Prod.fst = _
              rw [hsaves, hfilt1, List.filter_cons, hskj, hj100]
              simp
            | false =>
              rw [if_neg (by simp)]
              rw [hsaves, hfilt1, List.filter_cons, hskj, hj100]
              simp
          refine ⟨?_, hlen'.trans hlen, hwf', hpres'⟩
          · show j :: o'.calls = _
            rw [hcalls, hfilt2, List.filter_cons, hskj]
            simp

/-- Facts about a successful bulk run: checkpoint flushes happen exactly
after the non-skipped row indices that are multiples of 100, in order,
plus one unconditional final flush of the final table; the collaborator is
called exactly for the non-skipped rows in order; and a row that is skipped
(or out of range) is untouched. -/
theorem search_csv_facts (fetch : Nat → Option (List GPortalResponse))
    (noRepeat : Bool) (df : DataFrame) (o : RunOut)
    (hwf : DataFrame.WF df) (h : search_csv fetch noRepeat df = .ok o) :
    o.saves.map Prod.fst =
      ((List.range df.rows.length).filter
        (fun j => !(skipAt df noRepeat j) && j % 100 == 0)) ++ [df.rows.length] ∧
    o.calls = (List.range df.rows.length).filter
      (fun j => !(skipAt df noRepeat j)) ∧
    o.saves.getLast? = some (df.rows.length, o.df) ∧
    DataFrame.WF o.df ∧
    o.df.rows.length = df.rows.length ∧
    (∀ k, (k < df.rows.length → skipAt df noRepeat k = true) →
      o.df.rows[k]? = df.rows[k]?) := by
  unfold search_csv at h
  rcases ho : loopRows fetch noRepeat (List.range df.rows.length) df with e | o'
  · rw [ho, exbind_error] at h
    cases h
  · rw [ho, exbind_ok] at h
    cases h
    obtain ⟨hsaves, hcalls, hlen, hwf', hpres⟩ :=
      loopRows_facts fetch noRepeat (List.range df.rows.length) df o' hwf
        (fun j hj => List.mem_range.mp hj) (List.nodup_range _) ho
    refine ⟨?_, hcalls, ?_, hwf', hlen, ?_⟩
    · rw [List.map_append, hsaves]
      rfl
    · rw [List.getLast?_concat]
    · intro k hk
      exact hpres k (fun hkr => hk (List.mem_range.mp hkr))

theorem stepRes_fetch_congr (fetch fetch' : Nat → Option (List GPortalResponse))
    (noRepeat : Bool) (df : DataFrame) (j : Nat)
    (h : (fetch j).getD [] = (fetch' j).getD []) :
    stepRes fetch noRepeat df j = stepRes fetch' noRepeat df j := by
  unfold stepRes apiSearch
  rw [h]

theorem loopRows_fetch_congr (fetch fetch' : Nat → Option (List GPortalResponse))
    (noRepeat : Bool) (l : List Nat)
    (h : ∀ j ∈ l, (fetch j).getD [] = (fetch' j).getD []) :
    ∀ df, loopRows fetch noRepeat l df = loopRows fetch' noRepeat l df := by
  induction l with
  | nil => intro df; rfl
  | cons j rest ih =>
    intro df
    have hstep := stepRes_fetch_congr fetch fetch' noRepeat df j (h j (by simp))
    have hrest := ih (fun i hi => h i (by simp [hi]))
    show (stepRes fetch noRepeat df j >>= fun s =>
        loopRows fetch noRepeat rest s.1 >>= fun o =>
        if s.2 then
          Except.ok (RunOut.mk o.df
            (if j % 100 == 0 then (j, s.1) :: o.saves else o.saves) (j :: o.calls))
        else Except.ok (RunOut.mk o.df o.saves o.calls)) =
      (stepRes fetch' noRepeat df j >>= fun s =>
        loopRows fetch' noRepeat rest s.1 >>= fun o =>
        if s.2 then
          Except.ok (RunOut.mk o.df
            (if j % 100 == 0 then (j, s.1) :: o.saves else o.saves) (j :: o.calls))
        else Except.ok (RunOut.mk o.df o.saves o.calls))
    rw [hstep]
    have hfun : (fun (s : DataFrame × Bool) =>
        loopRows fetch noRepeat rest s.1 >>= fun o =>
        (if s.2 then
          Except.ok (RunOut.mk o.df
            (if j % 100 == 0 then (j, s.1) :: o.saves else o.saves) (j :: o.calls))
        else Except.ok (RunOut.mk o.df o.saves o.calls) : Except PyErr RunOut)) =
        (fun (s : DataFrame × Bool) =>
        loopRows fetch' noRepeat rest s.1 >>= fun o =>
        (if s.2 then
          Except.ok (RunOut.mk o.df
            (if j % 100 == 0 then (j, s.1) :: o.saves else o.saves) (j :: o.calls))
        else Except.ok (RunOut.mk o.df o.saves o.calls) : Except PyErr RunOut)) :=
      funext fun s => by rw [hrest s.1]
    rw [hfun]

/-- Fixture: a one-row table with no identifier column value. -/
def dfRow1 : DataFrame :=
  { cols := ["date", "lat"], rows := [[("date", Value.str "d")]] }

/-- Fixture: a two-row table. -/
def dfRow2 : DataFrame :=
  { cols := ["date"],
    rows := [[("date", Value.str "a")], [("date", Value.str "b")]] }

/-- C7: when the resolution outcome for a row is no match, the driver step
leaves the whole table untouched — the accumulator is not invoked at all,
so no column of the target row is blanked or overwritten and previously
resolved or manually entered values survive. -/
theorem C7_no_match_row_untouched (fetch : Nat → Option (List GPortalResponse))
    (noRepeat : Bool) (df : DataFrame) (i : Nat) (q : Query)
    (hq : deriveQueryE df i = .ok q) (hr : apiSearch fetch i q = .ok none) :
    stepRes fetch noRepeat df i = .ok (df, !(skipAt df noRepeat i)) := by
  unfold stepRes
  by_cases hskip : (noRepeat && (get_value (rowDict df i) "identifier").isSome) = true
  · rw [if_pos hskip, show skipAt df noRepeat i = true from hskip]
    rfl
  · rw [if_neg hskip,
      show skipAt df noRepeat i = false from Bool.eq_false_iff.mpr hskip,
      hq, exbind_ok, hr, exbind_ok]
    rfl

/-- Witness for C7 at a concrete one-row table whose search returns no
match: the step returns the table unchanged. -/
theorem C7_no_match_row_untouched_witness :
    deriveQueryE dfRow1 0 = .ok (Query.mk none none none none) ∧
    apiSearch (fun _ => none) 0 (Query.mk none none none none) = .ok none ∧
    stepRes (fun _ => none) false dfRow1 0 = .ok (dfRow1, true) := by
  refine ⟨by decide, by decide, ?_⟩
  exact C7_no_match_row_untouched (fun _ => none) false dfRow1 0
    (Query.mk none none none none) (by decide) (by decide)

/-- C8: a transient external failure (`fetch i = none`) is treated exactly
like an empty candidate set: the whole run is unchanged when the failing
call is replaced by one returning an empty result list; the failing row's
resolution is a normal no match (empty set, rule 1); and the loop
incorporates the remaining rows' results, continuing instead of
aborting. -/
theorem C8_failure_as_empty (fetch fetch' : Nat → Option (List GPortalResponse))
    (noRepeat : Bool) (i : Nat) (rest : List Nat) (df : DataFrame)
    (hfail : fetch i = none) (hempty : fetch' i = some [])
    (hagree : ∀ j, j ≠ i → fetch' j = fetch j) (hnotin : i ∉ rest) :
    loopRows fetch noRepeat (i :: rest) df =
      loopRows fetch' noRepeat (i :: rest) df ∧
    (∀ q, deriveQueryE df i = .ok q → apiSearch fetch i q = .ok none) ∧
    (∀ q o', skipAt df noRepeat i = false → deriveQueryE df i = .ok q →
      loopRows fetch noRepeat rest df = .ok o' →
      loopRows fetch noRepeat (i :: rest) df =
        .ok (RunOut.mk o'.df
          (if i % 100 == 0 then (i, df) :: o'.saves else o'.saves)
          (i :: o'.calls))) := by
  refine ⟨?_, ?_, ?_⟩
  · apply loopRows_fetch_congr
    intro j hj
    rcases List.mem_cons.mp hj with rfl | hj
    · rw [hfail, hempty]
      rfl
    · rw [hagree j (fun hEq => hnotin (hEq ▸ hj))]
  · intro q hq
    unfold apiSearch
    rw [hfail]
    rfl
  · intro q o' hskip hq ho'
    have hstep : stepRes fetch noRepeat df i = .ok (df, true) := by
      unfold stepRes
      rw [if_neg (show ¬((noRepeat &&
          (get_value (rowDict df i) "identifier").isSome) = true) from by
        rw [show (noRepeat && (get_value (rowDict df i) "identifier").isSome) =
          false from hskip]
        simp)]
      rw [hq, exbind_ok,
        show apiSearch fetch i q = .ok none from by unfold apiSearch; rw [hfail]; rfl,
        exbind_ok]
    show (stepRes fetch noRepeat df i >>= fun s =>
        loopRows fetch noRepeat rest s.1 >>= fun o =>
        if s.2 then
          Except.ok (RunOut.mk o.df
            (if i % 100 == 0 then (i, s.1) :: o.saves else o.saves) (i :: o.calls))
        else Except.ok (RunOut.mk o.df o.saves o.calls)) = _
    rw [hstep, exbind_ok, ho', exbind_ok, if_pos rfl]

/-- Witness for C8: a run over two rows whose external call fails at row 0
equals the run where row 0 returns an empty candidate set; row 0 resolves
to no match and row 1 is still processed. -/
theorem C8_failure_as_empty_witness :
    (loopRows (fun _ => none) false [0, 1] dfRow2 =
      loopRows (fun j => if j == 0 then some [] else none) false [0, 1] dfRow2) ∧
    apiSearch (fun _ => none) 0 (Query.mk none none none none) = .ok none ∧
    loopRows (fun _ => none) false [0, 1] dfRow2 =
      .ok (RunOut.mk (RunOut.mk dfRow2 [] [1]).df
        (if 0 % 100 == 0 then (0, dfRow2) :: (RunOut.mk dfRow2 [] [1]).saves
         else (RunOut.mk dfRow2 [] [1]).saves)
        (0 :: (RunOut.mk dfRow2 [] [1]).calls)) := by
  obtain ⟨h1, h2, h3⟩ := C8_failure_as_empty (fun _ => none)
    (fun j => if j == 0 then some [] else none) false 0 [1] dfRow2 rfl rfl
    (fun j hj => by
      cases j with
      | zero => exact absurd rfl hj
      | succ n => rfl)
    (by decide)
  exact ⟨h1, h2 (Query.mk none none none none) (by decide),
    h3 (Query.mk none none none none) (RunOut.mk dfRow2 [] [1]) (by decide)
      (by decide) (by decide)⟩

/-- C6: with skip-if-done enabled, a row already carrying a truthy
identifier triggers no external search call and is untouched by the whole
run (every one of its cells is exactly as before). -/
theorem C6_skip_if_done (fetch : Nat → Option (List GPortalResponse))
    (df : DataFrame) (i : Nat) (o : RunOut)
    (hwf : DataFrame.WF df)
    (hid : (get_value (rowDict df i) "identifier").isSome = true)
    (h : search_csv fetch true df = .ok o) :
    i ∉ o.calls ∧ o.df.rows[i]? = df.rows[i]? := by
  obtain ⟨hsaves, hcalls, hlast, hwf', hlen, hpres⟩ :=
    search_csv_facts fetch true df o hwf h
  have hskip : skipAt df true i = true := by
    unfold skipAt
    rw [hid]
    rfl
  constructor
  · rw [hcalls]
    intro hc
    have hmem := (List.mem_filter.mp hc).2
    rw [hskip] at hmem
    exact Bool.noConfusion hmem
  · exact hpres i (fun _ => hskip)

/-- Fixture: a two-row table whose first row already carries an
identifier. -/
def dfC6 : DataFrame :=
  { cols := ["date", "identifier"],
    rows := [[("date", Value.str "a"), ("identifier", Value.str "X123")],
             [("date", Value.str "b")]] }

/-- Witness for C6: in a concrete run, the identified row 0 is neither
searched nor modified. -/
theorem C6_skip_if_done_witness :
    DataFrame.WF dfC6 ∧
    (get_value (rowDict dfC6 0) "identifier").isSome = true ∧
    search_csv (fun _ => none) true dfC6 =
      .ok (RunOut.mk dfC6 [(2, dfC6)] [1]) ∧
    (0 ∉ (RunOut.mk dfC6 [(2, dfC6)] [1]).calls ∧
      (RunOut.mk dfC6 [(2, dfC6)] [1]).df.rows[0]? = dfC6.rows[0]?) := by
  refine ⟨by decide, by decide, by decide, ?_⟩
  exact C6_skip_if_done (fun _ => none) dfC6 0 (RunOut.mk dfC6 [(2, dfC6)] [1])
    (by decide) (by decide) (by decide)

/-- C5 amended: the driver flushes the full table after every non-skipped
row whose zero-based index is a multiple of 100 (the 1st, 101st, 201st, …
processed rows when nothing is skipped) and unconditionally once after the
final row; a skipped row falling on a multiple-of-100 index suppresses
that intermediate flush (the `continue` bypasses the checkpoint line). -/
theorem C5_amended_checkpoint_schedule
    (fetch : Nat → Option (List GPortalResponse)) (noRepeat : Bool)
    (df : DataFrame) (o : RunOut)
    (hwf : DataFrame.WF df) (h : search_csv fetch noRepeat df = .ok o) :
    o.saves.map Prod.fst =
      ((List.range df.rows.length).filter
        (fun j => !(skipAt df noRepeat j) && j % 100 == 0)) ++
        [df.rows.length] ∧
    o.saves.getLast? = some (df.rows.length, o.df) ∧
    (noRepeat = false → o.saves.map Prod.fst =
      ((List.range df.rows.length).filter (fun j => j % 100 == 0)) ++
        [df.rows.length]) := by
  obtain ⟨hsaves, hcalls, hlast, hwf', hlen, hpres⟩ :=
    search_csv_facts fetch noRepeat df o hwf h
  refine ⟨hsaves, hlast, ?_⟩
  rintro rfl
  rw [hsaves]
  congr 1

/-- Witness for the amended C5: a two-row run flushes after row 0 and once
more after the final row, the final flush holding the final table. -/
theorem C5_amended_checkpoint_schedule_witness :
    DataFrame.WF dfRow2 ∧
    search_csv (fun _ => none) false dfRow2 =
      .ok (RunOut.mk dfRow2 [(0, dfRow2), (2, dfRow2)] [0, 1]) ∧
    ((RunOut.mk dfRow2 [(0, dfRow2), (2, dfRow2)] [0, 1]).saves.map Prod.fst =
      ((List.range dfRow2.rows.length).filter
        (fun j => !(skipAt dfRow2 false j) && j % 100 == 0)) ++
        [dfRow2.rows.length] ∧
     (RunOut.mk dfRow2 [(0, dfRow2), (2, dfRow2)] [0, 1]).saves.getLast? =
      some (dfRow2.rows.length,
        (RunOut.mk dfRow2 [(0, dfRow2), (2, dfRow2)] [0, 1]).df) ∧
     (false = false →
      (RunOut.mk dfRow2 [(0, dfRow2), (2, dfRow2)] [0, 1]).saves.map Prod.fst =
        ((List.range dfRow2.rows.length).filter (fun j => j % 100 == 0)) ++
          [dfRow2.rows.length])) := by
  refine ⟨by decide, by decide, ?_⟩
  exact C5_amended_checkpoint_schedule (fun _ => none) false dfRow2
    (RunOut.mk dfRow2 [(0, dfRow2), (2, dfRow2)] [0, 1]) (by decide) (by decide)

/-- Fixture: a 110-row table whose rows at indices 0 and 100 already carry
an identifier. -/
def df110 : DataFrame :=
  { cols := ["date", "identifier"],
    rows := (List.range 110).map (fun k =>
      if k % 100 == 0 then [("date", Value.str "d"), ("identifier", Value.str "X")]
      else [("date", Value.str "d")]) }

set_option maxRecDepth 100000 in
/-- C5 counterexample: a 110-row bulk run with skip-if-done enabled whose
rows 0 and 100 are already identified performs 108 external searches but
never flushes before the end — the only flush is the final one — because
the skip `continue` bypasses the checkpoint line exactly at the
multiple-of-100 indices.  The claimed "flush after every 100 processed
rows" (bounding the loss to one interval) fails: all 108 rows of work sit
unflushed until the final save. -/
theorem C5_counterexample :
    (search_csv (fun _ => none) true df110).map
      (fun o => (o.saves.map Prod.fst, o.calls.length)) = .ok ([110], 108) ∧
    (search_csv (fun _ => none) true df110).map
      (fun o => o.saves.filter (fun p => p.1 < df110.rows.length)) = .ok [] := by
  constructor
  · decide
  · decide

theorem get_value_of_falsy (d : String → Option Value) (k : String)
    (h : ∀ v, d k = some v → truthy v = false) : get_value d k = none := by
  unfold get_value
  rcases hd : d k with _ | v
  · rfl
  · show (if truthy v = true then some v else none) = none
    rw [h v hd]
    simp

/-- C10: a cell holding a falsy value — missing (NaN, filled with 0 before
reading), the empty string, or a genuine numeric 0 such as latitude 0.0 or
path number 0 — is treated as "not supplied" when the query is derived, so
such a query silently degenerates to a weaker filter branch of `resolve`
(here: a row at latitude 0 with path number 0 resolves to the first
candidate regardless of geometry). -/
theorem C10_falsy_not_supplied :
    (∀ (d : String → Option Value) (k : String),
      (∀ v, d k = some v → truthy v = false) → get_value d k = none) ∧
    (∀ (df : DataFrame) (i : Nat) (c : String),
      ((df.rows.getD i []).lookup c = none ∨
       (df.rows.getD i []).lookup c = some Value.nan ∨
       (df.rows.getD i []).lookup c = some (Value.num 0) ∨
       (df.rows.getD i []).lookup c = some (Value.str "")) →
      get_value (rowDict df i) c = none) ∧
    (∀ (df : DataFrame) (i : Nat) (q : Query)
       (fetch : Nat → Option (List GPortalResponse))
       (g : GPortalResponse) (gs : List GPortalResponse),
      deriveQueryE df i = .ok q →
      get_value (rowDict df i) "lat" = none →
      get_value (rowDict df i) "path_number" = none →
      fetch i = some (g :: gs) →
      q.lat = none ∧ q.path = none ∧ apiSearch fetch i q = .ok (some g)) := by
  refine ⟨get_value_of_falsy, ?_, ?_⟩
  · intro df i c hc
    apply get_value_of_falsy
    intro v hv
    unfold rowDict at hv
    by_cases hmem : c ∈ df.cols
    · rw [if_pos hmem] at hv
      cases hv
      rcases hc with hc | hc | hc | hc <;> rw [hc] <;> rfl
    · rw [if_neg hmem] at hv
      cases hv
  · intro df i q fetch g gs hq hlat hpath hfetch
    unfold deriveQueryE at hq
    rw [hlat, show toQE none = Except.ok none from rfl, exbind_ok] at hq
    rcases hlon : toQE (get_value (rowDict df i) "lon") with e | lonq
    · rw [hlon, exbind_error] at hq
      cases hq
    · rw [hlon, exbind_ok] at hq
      rw [hpath, show toQE none = Except.ok none from rfl, exbind_ok] at hq
      rcases hsc : toQE (get_value (rowDict df i) "scene_number") with e | sq
      · rw [hsc, exbind_error] at hq
        cases hq
      · rw [hsc, exbind_ok] at hq
        have hq' : Except.ok (Query.mk none lonq none sq) = Except.ok q := hq
        cases hq'
        refine ⟨rfl, rfl, ?_⟩
        unfold apiSearch
        rw [hfetch]
        show filter_results (g :: gs) none lonq none sq = .ok (some g)
        simp [filter_results]

/-- Fixture: a one-row table whose lat cell is the number 0 (coordinate
zero) and whose path-number cell is 0. -/
def dfC10 : DataFrame :=
  { cols := ["date", "lat", "lon", "path_number"],
    rows := [[("date", Value.str "d"), ("lat", Value.num 0),
              ("lon", Value.num 139), ("path_number", Value.num 0)]] }

/-- Witness for C10: the zero-valued lat and path cells read as "not
supplied", and the query degenerates to the first-candidate branch even
though two candidates are available and lat/lon would have selected by
geometry. -/
theorem C10_falsy_not_supplied_witness :
    get_value (fun _ => some (Value.num 0)) "lat" = none ∧
    get_value (rowDict dfC10 0) "lat" = none ∧
    ((Query.mk none (some 139) none none).lat = none ∧
     (Query.mk none (some 139) none none).path = none ∧
     apiSearch (fun _ => some [fpA, fpB]) 0 (Query.mk none (some 139) none none) =
       .ok (some fpA)) := by
  refine ⟨?_, ?_, ?_⟩
  · exact C10_falsy_not_supplied.1 (fun _ => some (Value.num 0)) "lat"
      (fun v hv => by cases hv; rfl)
  · exact C10_falsy_not_supplied.2.1 dfC10 0 "lat" (by decide)
  · exact C10_falsy_not_supplied.2.2 dfC10 0 (Query.mk none (some 139) none none)
      (fun _ => some [fpA, fpB]) fpA [fpB] (by decide) (by decide) (by decide) rfl
